import Mathlib

/-!
Verification of the core logic of `app.py` (Dream-to-Story):
the mood classifier, the story/moral generator with its reply-parsing
step, the length-hint selection, and the submit handler with its
hash-derived output filename.

Strings are modelled as `List Char`; Python string primitives
(`upper`, `strip`, `find`, slicing, `splitlines`, `in`) are embedded
as executable Lean functions below.
-/

set_option maxRecDepth 8000

/-- Convert a Lean string literal to our `List Char` model of Python `str`. -/
def pyStr (s : String) : List Char := s.data

/-- Python `str.upper()`, modelled per-character (ASCII case mapping). -/
def pyUpper (s : List Char) : List Char := s.map Char.toUpper

/-- Characters Python's `str.strip()` removes (the ASCII whitespace set). -/
def isPySpace (c : Char) : Bool :=
  c = ' ' || c = '\t' || c = '\n' || c = '\r' || c = '\x0b' || c = '\x0c'

/-- Python `str.strip()`: drop leading and trailing whitespace. -/
def pyStrip (s : List Char) : List Char :=
  ((s.dropWhile isPySpace).reverse.dropWhile isPySpace).reverse

/-- Python `haystack.find(needle)` for a present needle / `needle in haystack`:
`some i` is the least index where `needle` starts in `haystack`, `none` if absent. -/
def findSub (needle : List Char) : List Char → Option Nat
  | [] => if needle.isPrefixOf ([] : List Char) then some 0 else none
  | c :: rest =>
      if needle.isPrefixOf (c :: rest) then some 0
      else (findSub needle rest).map (· + 1)

/-- Python slice `s[i:j]` for nonnegative `i`, `j` (empty when `j ≤ i`). -/
def pySlice (s : List Char) (i j : Nat) : List Char := (s.drop i).take (j - i)

/-- Characters Python's `str.splitlines()` treats as line boundaries
(besides the combined `"\r\n"`). -/
def isLineBreak (c : Char) : Bool :=
  c = '\n' || c = '\r' || c = '\x0b' || c = '\x0c' ||
  c = '\x1c' || c = '\x1d' || c = '\x1e' || c = '\x85' ||
  c = '\u2028' || c = '\u2029'

/-- Worker for `splitlines`: `acc` holds the current line reversed. -/
def splitlinesAux (acc : List Char) : List Char → List (List Char)
  | [] => if acc = [] then [] else [acc.reverse]
  | '\r' :: '\n' :: rest => acc.reverse :: splitlinesAux [] rest
  | c :: rest =>
      if isLineBreak c then acc.reverse :: splitlinesAux [] rest
      else splitlinesAux (c :: acc) rest

/-- Python `str.splitlines()`. -/
def splitlines (s : List Char) : List (List Char) := splitlinesAux [] s

/-- The literal marker `"STORY:"` scanned for in the reply (app.py line 108). -/
def STORYmark : List Char := pyStr "STORY:"

/-- The literal marker `"MORAL:"` scanned for in the reply (app.py line 108). -/
def MORALmark : List Char := pyStr "MORAL:"

/-- `[ln.strip() for ln in text.splitlines() if ln.strip()]` (app.py line 117). -/
def fallbackLines (text : List Char) : List (List Char) :=
  ((splitlines text).map pyStrip).filter (fun l => !l.isEmpty)

/-- The parsing step of `generate_story_and_moral` (app.py lines 104-121):
split the model reply into a `(story, moral)` pair using the
`STORY:` / `MORAL:` markers, falling back to a line-based split. -/
def parseStoryMoral (text : List Char) : List Char × List Char :=
  match findSub STORYmark (pyUpper text), findSub MORALmark (pyUpper text) with
  | some s_idx, some m_idx =>
      (pyStrip (pySlice text (s_idx + STORYmark.length) m_idx),
       pyStrip (text.drop (m_idx + MORALmark.length)))
  | _, _ =>
      let lines := fallbackLines text
      if 2 ≤ lines.length then
        (List.intercalate (pyStr "\n") lines.dropLast, lines.getLastD [])
      else (text, [])

example : parseStoryMoral (pyStr "STORY: A fox ran. MORAL: Be brave.") =
    (pyStr "A fox ran.", pyStr "Be brave.") := by decide

example : parseStoryMoral (pyStr "Line A\nLine B") =
    (pyStr "Line A", pyStr "Line B") := by decide

example : parseStoryMoral (pyStr "Hello") = (pyStr "Hello", pyStr "") := by decide

example : parseStoryMoral (pyStr "") = (pyStr "", pyStr "") := by decide

example : parseStoryMoral (pyStr "MORAL: Be kind. STORY: A cat.") =
    (pyStr "", pyStr "Be kind. STORY: A cat.") := by decide

example : parseStoryMoral (pyStr "story: x moral: y") = (pyStr "x", pyStr "y") := by
  decide

/-- One request to the completion service collaborator: the role-tagged
messages and the output-length cap (app.py `client.chat.completions.create`). -/
structure ServiceCall where
  system : List Char
  user : List Char
  maxTokens : Nat
  deriving DecidableEq

/-- The fixed system instruction of `analyze_mood` (app.py lines 45-49). -/
def moodSystem : List Char := pyStr
  ("You are a short-text mood classifier for dreams. " ++
   "Given a user dream text, reply with one short mood label only. " ++
   "Choose from: Scary, Happy, Peaceful, Anxious, Confusing, Exciting, Sad, Surreal, Neutral.")

/-- `analyze_mood(dream_text)` (app.py lines 38-61). The service is modelled
by the oracle `respond`; the second component lists the network calls made. -/
def analyze_mood (client : Bool) (respond : ServiceCall → List Char)
    (dream_text : List Char) : List Char × List ServiceCall :=
  if !client then (pyStr "Unknown (no API key)", [])
  else
    let call : ServiceCall := ⟨moodSystem, dream_text, 30⟩
    (pyStrip (respond call), [call])

/-- The fixed system instruction of `generate_story_and_moral` (app.py lines 72-76). -/
def genSystem : List Char := pyStr
  ("You are a creative writer who converts people's dreams into short fictional stories. " ++
   "Respond in two labeled sections: STORY: <story text> and MORAL: <one-sentence moral>. " ++
   "Keep language simple and vivid. Respect the chosen genre and requested length.")

/-- The `length_hint` dictionary lookup with default (app.py lines 79-83):
`{"Short": ..., "Medium": ..., "Long": ...}.get(length, "Keep it short.")`. -/
def length_hint (length : List Char) : List Char :=
  if length = pyStr "Short" then pyStr "Keep it very short (3-5 sentences)."
  else if length = pyStr "Medium" then pyStr "Make it medium length (5-8 sentences)."
  else if length = pyStr "Long" then pyStr "Make it longer (8-12 sentences)."
  else pyStr "Keep it short."

/-- The user prompt built by `generate_story_and_moral` (app.py lines 85-90). -/
def genPrompt (dream_text genre length : List Char) : List Char :=
  pyStr "User dream: " ++ dream_text ++ pyStr "\n" ++
  pyStr "Genre: " ++ genre ++ pyStr "\n" ++
  pyStr "Length hint: " ++ length_hint length ++ pyStr "\n" ++
  pyStr "Write a short creative story inspired by the dream. Then write a one-sentence moral."

/-- `generate_story_and_moral(dream_text, genre, length)` (app.py lines 64-122):
returns the `(story, moral)` pair together with the list of network calls made. -/
def generate_story_and_moral (client : Bool) (respond : ServiceCall → List Char)
    (dream_text genre length : List Char) :
    (List Char × List Char) × List ServiceCall :=
  if !client then ((pyStr "(API key missing)", []), [])
  else
    let call : ServiceCall := ⟨genSystem, genPrompt dream_text genre length, 550⟩
    (parseStoryMoral (pyStrip (respond call)), [call])

/-- Python `str.encode("utf-8")`: the UTF-8 byte sequence of a text. -/
def utf8Encode (s : List Char) : List Nat :=
  s.flatMap fun ch =>
    let c := ch.toNat
    if c < 128 then [c]
    else if c < 2048 then [192 + c / 64, 128 + c % 64]
    else if c < 65536 then [224 + c / 4096, 128 + c / 64 % 64, 128 + c % 64]
    else [240 + c / 262144, 128 + c / 4096 % 64, 128 + c / 64 % 64, 128 + c % 64]

/-- Truncate to a 32-bit word. -/
def w32 (n : Nat) : Nat := n % 4294967296

/-- Left-rotation of a 32-bit word by `s` bits. -/
def rotl (s n : Nat) : Nat := (n * 2 ^ s + n / 2 ^ (32 - s)) % 4294967296

/-- The `k` most significant bytes of `n`, big-endian. -/
def bytesBE : Nat → Nat → List Nat
  | 0, _ => []
  | k + 1, n => n / 2 ^ (8 * k) % 256 :: bytesBE k n

/-- SHA-1 message padding: `0x80`, zeros to 56 mod 64, then the 64-bit bit length. -/
def sha1pad (msg : List Nat) : List Nat :=
  msg ++ [128] ++ List.replicate ((119 - msg.length % 64) % 64) 0 ++
    bytesBE 8 (msg.length * 8)

/-- Worker for `toBlocks`; the fuel bounds the number of blocks produced. -/
def toBlocksF : Nat → List Nat → List (List Nat)
  | _, [] => []
  | 0, _ :: _ => []
  | fuel + 1, a :: rest => ((a :: rest).take 64) :: toBlocksF fuel (rest.drop 63)

/-- Split a byte string into 64-byte blocks. -/
def toBlocks (l : List Nat) : List (List Nat) := toBlocksF l.length l

/-- Big-endian 32-bit words of a byte block. -/
def toWords : List Nat → List Nat
  | b0 :: b1 :: b2 :: b3 :: rest =>
      (((b0 * 256 + b1) * 256 + b2) * 256 + b3) :: toWords rest
  | _ => []

/-- `l.getD i 0`, the word schedule accessor. -/
def nthW (l : List Nat) (i : Nat) : Nat := l.getD i 0

/-- Extend 16 message words to the 80-word SHA-1 schedule. -/
def sha1Schedule (w16 : List Nat) : List Nat :=
  (List.range 64).foldl
    (fun ws _ =>
      ws ++ [rotl 1 (nthW ws (ws.length - 3) ^^^ nthW ws (ws.length - 8) ^^^
                     nthW ws (ws.length - 14) ^^^ nthW ws (ws.length - 16))])
    w16

/-- The SHA-1 working state: the five 32-bit registers. -/
structure Sha1State where
  a : Nat
  b : Nat
  c : Nat
  d : Nat
  e : Nat

/-- One SHA-1 compression round. -/
def sha1Round (st : Sha1State) (i wi : Nat) : Sha1State :=
  let f :=
    if i < 20 then st.b &&& st.c ||| ((st.b ^^^ 4294967295) &&& st.d)
    else if i < 40 then st.b ^^^ st.c ^^^ st.d
    else if i < 60 then st.b &&& st.c ||| (st.b &&& st.d) ||| (st.c &&& st.d)
    else st.b ^^^ st.c ^^^ st.d
  let k :=
    if i < 20 then 1518500249
    else if i < 40 then 1859775393
    else if i < 60 then 2400959708
    else 3395469782
  ⟨w32 (rotl 5 st.a + f + st.e + k + wi), st.a, rotl 30 st.b, st.c, st.d⟩

/-- Process one 64-byte block, updating the five hash words. -/
def sha1Block (h : Sha1State) (block : List Nat) : Sha1State :=
  let ws := sha1Schedule (toWords block)
  let st := (List.range 80).foldl (fun st i => sha1Round st i (nthW ws i)) h
  ⟨w32 (h.a + st.a), w32 (h.b + st.b), w32 (h.c + st.c),
   w32 (h.d + st.d), w32 (h.e + st.e)⟩

/-- `hashlib.sha1(bytes).digest()`: the 20-byte SHA-1 digest. -/
def sha1 (msg : List Nat) : List Nat :=
  let st := (toBlocks (sha1pad msg)).foldl sha1Block
    ⟨1732584193, 4023233417, 2562383102, 271733878, 3285377520⟩
  bytesBE 4 st.a ++ bytesBE 4 st.b ++ bytesBE 4 st.c ++ bytesBE 4 st.d ++ bytesBE 4 st.e

/-- The sixteen lowercase hexadecimal digit characters. -/
def hexDigits : List Char := pyStr "0123456789abcdef"

/-- The hexadecimal character of a nibble. -/
def hexChar (n : Nat) : Char := hexDigits.getD n '0'

/-- `.hexdigest()`: lowercase hex rendering of a byte string. -/
def hexdigest (bytes : List Nat) : List Char :=
  bytes.flatMap fun b => [hexChar (b / 16), hexChar (b % 16)]

/-- `hashlib.sha1(dream_input.encode("utf-8")).hexdigest()[:8]` (app.py line 166). -/
def dreamHash8 (dream_input : List Char) : List Char :=
  (hexdigest (sha1 (utf8Encode dream_input))).take 8

/-- `f"stories/dream_{h}.txt"` (app.py line 167). -/
def dreamFName (dream_input : List Char) : List Char :=
  pyStr "stories/dream_" ++ dreamHash8 dream_input ++ pyStr ".txt"

example : dreamHash8 (pyStr "abc") = pyStr "a9993e36" := by decide

/-- `full_text` assembled by the submit handler (app.py line 159). -/
def fullText (dream_input mood story moral : List Char) : List Char :=
  pyStr "Dream:\n" ++ dream_input ++ pyStr "\n\nMood: " ++ mood ++
  pyStr "\n\nStory:\n" ++ story ++ pyStr "\n\nMoral:\n" ++ moral ++ pyStr "\n"

/-- Observable outcome of one submission (app.py lines 141-172):
whether the empty-input warning fired, the service calls made, and the
file written on the success path of the save block (name, contents). -/
structure SubmitOutcome where
  warnedEmpty : Bool
  calls : List ServiceCall
  savedFile : Option (List Char × List Char)
  deriving DecidableEq

/-- The submit handler (app.py lines 141-172): validate the dream text,
then classify the mood, generate the story and moral, and write
`stories/dream_<hash>.txt`. -/
def submitDream (client : Bool) (respond : ServiceCall → List Char)
    (dream_input genre length : List Char) : SubmitOutcome :=
  if pyStrip dream_input = [] then
    { warnedEmpty := true, calls := [], savedFile := none }
  else
    let r1 := analyze_mood client respond dream_input
    let r2 := generate_story_and_moral client respond dream_input genre length
    { warnedEmpty := false
      calls := r1.2 ++ r2.2
      savedFile := some (dreamFName dream_input,
        fullText dream_input r1.1 r2.1.1 r2.1.2) }

/-! ### Helper lemmas -/

lemma STORYmark_length : STORYmark.length = 6 := by decide

lemma MORALmark_length : MORALmark.length = 6 := by decide

/-- When both marker searches succeed, the parse takes the marker branch. -/
lemma parseStoryMoral_marker_branch (text : List Char) (s_idx m_idx : Nat)
    (hs : findSub STORYmark (pyUpper text) = some s_idx)
    (hm : findSub MORALmark (pyUpper text) = some m_idx) :
    parseStoryMoral text =
      (pyStrip (pySlice text (s_idx + 6) m_idx),
       pyStrip (text.drop (m_idx + 6))) := by
  simp only [parseStoryMoral, hs, hm, STORYmark_length, MORALmark_length]

/-- When a marker search fails and at least two non-empty trimmed lines
exist, the parse takes the two-line fallback branch. -/
lemma parseStoryMoral_fallback_branch (text : List Char)
    (hmiss : findSub STORYmark (pyUpper text) = none ∨
             findSub MORALmark (pyUpper text) = none)
    (hlen : 2 ≤ (fallbackLines text).length) :
    parseStoryMoral text =
      (List.intercalate (pyStr "\n") (fallbackLines text).dropLast,
       (fallbackLines text).getLastD []) := by
  rcases hmiss with h | h
  · simp only [parseStoryMoral, h]
    simp [hlen]
  · cases hs : findSub STORYmark (pyUpper text) with
    | none => simp only [parseStoryMoral, hs]; simp [hlen]
    | some s => simp only [parseStoryMoral, hs, h]; simp [hlen]

/-- When a marker search fails and fewer than two non-empty trimmed lines
exist, the parse returns the whole reply with an empty moral. -/
lemma parseStoryMoral_degenerate_branch (text : List Char)
    (hmiss : findSub STORYmark (pyUpper text) = none ∨
             findSub MORALmark (pyUpper text) = none)
    (hlen : (fallbackLines text).length < 2) :
    parseStoryMoral text = (text, []) := by
  have hlen' : ¬ 2 ≤ (fallbackLines text).length := by omega
  rcases hmiss with h | h
  · simp only [parseStoryMoral, h]
    simp [hlen']
  · cases hs : findSub STORYmark (pyUpper text) with
    | none => simp only [parseStoryMoral, hs]; simp [hlen']
    | some s => simp only [parseStoryMoral, hs, h]; simp [hlen']

lemma bytesBE_length (k n : Nat) : (bytesBE k n).length = k := by
  induction k generalizing n with
  | zero => rfl
  | succ k ih => simp [bytesBE, ih]

lemma sha1_length (msg : List Nat) : (sha1 msg).length = 20 := by
  unfold sha1
  simp [bytesBE_length]

lemma hexdigest_length (bytes : List Nat) :
    (hexdigest bytes).length = 2 * bytes.length := by
  induction bytes with
  | nil => rfl
  | cons b rest ih =>
      simp only [hexdigest, List.flatMap_cons] at ih ⊢
      simp [List.length_append, ih]
      omega

lemma hexChar_mem (n : Nat) : hexChar n ∈ hexDigits := by
  unfold hexChar List.getD
  cases hg : hexDigits.get? n with
  | none => simp [hg]; decide
  | some c => simp [hg]; exact List.get?_mem hg

lemma mem_hexdigest (bytes : List Nat) (ch : Char)
    (h : ch ∈ hexdigest bytes) : ch ∈ hexDigits := by
  unfold hexdigest at h
  rw [List.mem_flatMap] at h
  obtain ⟨b, _, hb⟩ := h
  simp only [List.mem_cons, List.not_mem_nil, or_false] at hb
  rcases hb with rfl | rfl <;> exact hexChar_mem _

lemma dreamHash8_length (dream : List Char) : (dreamHash8 dream).length = 8 := by
  unfold dreamHash8
  rw [List.length_take, hexdigest_length, sha1_length]
  decide

lemma dreamHash8_hex (dream : List Char) (ch : Char)
    (h : ch ∈ dreamHash8 dream) : ch ∈ hexDigits :=
  mem_hexdigest _ _ (List.take_subset _ _ h)

/-- The lowercase spelling of the story marker. -/
def storyMarkLower : List Char := pyStr "story:"

/-- The lowercase spelling of the moral marker. -/
def moralMarkLower : List Char := pyStr "moral:"

/-- Uppercasing erases the case difference between the two marker spellings. -/
lemma pyUpper_markers_eq (a b c : List Char) :
    pyUpper (a ++ storyMarkLower ++ b ++ moralMarkLower ++ c) =
      pyUpper (a ++ STORYmark ++ b ++ MORALmark ++ c) := by
  have h1 : List.map Char.toUpper storyMarkLower = List.map Char.toUpper STORYmark := by
    decide
  have h2 : List.map Char.toUpper moralMarkLower = List.map Char.toUpper MORALmark := by
    decide
  simp [pyUpper, h1, h2]

/-- The slice strictly between the two six-character markers is the middle part. -/
lemma pySlice_between_markers (a mk b mk2 c : List Char) (hmk : mk.length = 6) :
    pySlice (a ++ mk ++ b ++ mk2 ++ c) (a.length + 6) (a.length + 6 + b.length) = b := by
  unfold pySlice
  have h1 : a.length + 6 + b.length - (a.length + 6) = b.length := by omega
  rw [h1]
  rw [show a ++ mk ++ b ++ mk2 ++ c = (a ++ mk) ++ (b ++ (mk2 ++ c)) by
    simp [List.append_assoc]]
  rw [List.drop_left' (by simp [hmk])]
  exact List.take_left b (mk2 ++ c)

/-- Dropping past the second marker leaves the tail part. -/
lemma drop_after_second_marker (a mk b mk2 c : List Char)
    (hmk : mk.length = 6) (hmk2 : mk2.length = 6) :
    (a ++ mk ++ b ++ mk2 ++ c).drop (a.length + 6 + b.length + 6) = c := by
  refine List.drop_left' ?_
  simp [hmk, hmk2]
  omega

/-! ### Claim theorems -/

/-- C1: when both markers "STORY:" and "MORAL:" occur in the reply
(case-insensitively, first occurrences at `s_idx` and `m_idx`), the parsing
step of `generate_story_and_moral` returns story = the substring strictly
between the end of the first "STORY:" and the start of the first "MORAL:",
trimmed, and moral = the substring after the first "MORAL:" to the end,
trimmed. -/
theorem C1_parse_with_both_markers (text : List Char) (s_idx m_idx : Nat)
    (hs : findSub STORYmark (pyUpper text) = some s_idx)
    (hm : findSub MORALmark (pyUpper text) = some m_idx) :
    parseStoryMoral text =
      (pyStrip (pySlice text (s_idx + 6) m_idx),
       pyStrip (text.drop (m_idx + 6))) :=
  parseStoryMoral_marker_branch text s_idx m_idx hs hm

/-- C1 witness: parsing "STORY: A fox ran. MORAL: Be brave." yields
story = "A fox ran." and moral = "Be brave." exactly. -/
theorem C1_parse_with_both_markers_witness :
    parseStoryMoral (pyStr "STORY: A fox ran. MORAL: Be brave.") =
      (pyStr "A fox ran.", pyStr "Be brave.") :=
  (C1_parse_with_both_markers (pyStr "STORY: A fox ran. MORAL: Be brave.")
    0 18 (by decide) (by decide)).trans (by decide)

/-- C2 counterexample: the length hint used for an unrecognized tier
("Tiny") is not the hint used for the "Short" tier, refuting the claim
that unrecognized tiers use the "Short" phrasing. -/
theorem C2_counterexample :
    length_hint (pyStr "Tiny") ≠ length_hint (pyStr "Short") := by decide

/-- C2 (amended): for every length argument not in
\x7b"Short", "Medium", "Long"\x7d, `generate_story_and_moral` proceeds
without error and puts the fixed default hint "Keep it short." in the
prompt — a phrasing distinct from the "Short" tier's hint. -/
theorem C2_default_length_hint (length : List Char)
    (h1 : length ≠ pyStr "Short") (h2 : length ≠ pyStr "Medium")
    (h3 : length ≠ pyStr "Long") :
    length_hint length = pyStr "Keep it short." := by
  simp [length_hint, h1, h2, h3]

/-- C2 witness: the unrecognized tier "Tiny" gets the default hint. -/
theorem C2_default_length_hint_witness :
    length_hint (pyStr "Tiny") = pyStr "Keep it short." :=
  C2_default_length_hint (pyStr "Tiny") (by decide) (by decide) (by decide)

/-- C3: when at least one marker is absent (case-insensitively) and the
reply splits into at least two non-empty trimmed lines, parsing returns
moral = the last such line and story = the newline-separated join of all
preceding non-empty trimmed lines. -/
theorem C3_fallback_two_lines (text : List Char)
    (hmiss : findSub STORYmark (pyUpper text) = none ∨
             findSub MORALmark (pyUpper text) = none)
    (hlen : 2 ≤ (fallbackLines text).length) :
    parseStoryMoral text =
      (List.intercalate (pyStr "\n") (fallbackLines text).dropLast,
       (fallbackLines text).getLastD []) :=
  parseStoryMoral_fallback_branch text hmiss hlen

/-- C3 witness: the marker-free two-line reply "Line A" / "Line B" parses
to story = "Line A", moral = "Line B". -/
theorem C3_fallback_two_lines_witness :
    parseStoryMoral (pyStr "Line A\nLine B") =
      (pyStr "Line A", pyStr "Line B") :=
  (C3_fallback_two_lines (pyStr "Line A\nLine B")
    (Or.inl (by decide)) (by decide)).trans (by decide)

/-- C4: when at least one marker is absent (case-insensitively) and the
reply has fewer than two non-empty trimmed lines, parsing returns
story = the entire reply and moral = the empty string. -/
theorem C4_fallback_degenerate (text : List Char)
    (hmiss : findSub STORYmark (pyUpper text) = none ∨
             findSub MORALmark (pyUpper text) = none)
    (hlen : (fallbackLines text).length < 2) :
    parseStoryMoral text = (text, []) :=
  parseStoryMoral_degenerate_branch text hmiss hlen

/-- C4 witness: the single-line, marker-free reply "Hello" parses to
story = "Hello", moral = "". -/
theorem C4_fallback_degenerate_witness :
    parseStoryMoral (pyStr "Hello") = (pyStr "Hello", pyStr "") :=
  (C4_fallback_degenerate (pyStr "Hello")
    (Or.inl (by decide)) (by decide)).trans (by decide)

/-- C10: when the first "MORAL:" occurrence precedes the first "STORY:"
occurrence (case-insensitively), the marker branch returns an empty story
and moral = everything after the first "MORAL:", trimmed — which includes
the "STORY:"-labeled text. -/
theorem C10_moral_before_story (text : List Char) (s_idx m_idx : Nat)
    (hs : findSub STORYmark (pyUpper text) = some s_idx)
    (hm : findSub MORALmark (pyUpper text) = some m_idx)
    (hlt : m_idx < s_idx) :
    parseStoryMoral text = ([], pyStrip (text.drop (m_idx + 6))) := by
  rw [parseStoryMoral_marker_branch text s_idx m_idx hs hm]
  have h0 : m_idx - (s_idx + 6) = 0 := by omega
  simp [pySlice, h0, pyStrip]

/-- C10 witness: "MORAL: Be kind. STORY: A cat." parses to story = "" and
moral = "Be kind. STORY: A cat.". -/
theorem C10_moral_before_story_witness :
    parseStoryMoral (pyStr "MORAL: Be kind. STORY: A cat.") =
      (pyStr "", pyStr "Be kind. STORY: A cat.") :=
  (C10_moral_before_story (pyStr "MORAL: Be kind. STORY: A cat.")
    16 0 (by decide) (by decide) (by decide)).trans (by decide)

/-- C5 counterexample: the all-lowercase reply "moral: x story: y" and the
identical reply with uppercase markers parse to different pairs (the moral
slice retains the original casing of the later marker), refuting the
universal case-insensitivity claim. -/
theorem C5_counterexample :
    parseStoryMoral (pyStr "moral: x story: y") ≠
      parseStoryMoral (pyStr "MORAL: x STORY: y") := by decide

/-- C5 (amended): for replies of the form `a ++ "STORY:" ++ b ++ "MORAL:" ++ c`
in which these are the first case-insensitive marker occurrences (so each
marker occurs once, story label first), the reply with lowercase markers
parses to exactly the same (story, moral) pair as the reply with uppercase
markers. -/
theorem C5_case_insensitive_markers (a b c : List Char)
    (hs : findSub STORYmark (pyUpper (a ++ STORYmark ++ b ++ MORALmark ++ c)) =
      some a.length)
    (hm : findSub MORALmark (pyUpper (a ++ STORYmark ++ b ++ MORALmark ++ c)) =
      some (a.length + 6 + b.length)) :
    parseStoryMoral (a ++ storyMarkLower ++ b ++ moralMarkLower ++ c) =
      parseStoryMoral (a ++ STORYmark ++ b ++ MORALmark ++ c) := by
  have hs' : findSub STORYmark
      (pyUpper (a ++ storyMarkLower ++ b ++ moralMarkLower ++ c)) =
      some a.length := by rw [pyUpper_markers_eq]; exact hs
  have hm' : findSub MORALmark
      (pyUpper (a ++ storyMarkLower ++ b ++ moralMarkLower ++ c)) =
      some (a.length + 6 + b.length) := by rw [pyUpper_markers_eq]; exact hm
  rw [parseStoryMoral_marker_branch _ _ _ hs' hm',
      parseStoryMoral_marker_branch _ _ _ hs hm]
  rw [pySlice_between_markers a storyMarkLower b moralMarkLower c (by decide),
      pySlice_between_markers a STORYmark b MORALmark c (by decide)]
  rw [drop_after_second_marker a storyMarkLower b moralMarkLower c
        (by decide) (by decide),
      drop_after_second_marker a STORYmark b MORALmark c
        (by decide) (by decide)]

/-- C5 witness: a concrete reply in canonical marker form parses the same
with lowercase and uppercase markers. -/
theorem C5_case_insensitive_markers_witness :
    parseStoryMoral (pyStr "" ++ storyMarkLower ++ pyStr " x " ++
        moralMarkLower ++ pyStr " y") =
      parseStoryMoral (pyStr "" ++ STORYmark ++ pyStr " x " ++
        MORALmark ++ pyStr " y") :=
  C5_case_insensitive_markers (pyStr "") (pyStr " x ") (pyStr " y")
    (by decide) (by decide)

/-- C6: for every non-empty dream text, genre, and length tier, when no
client is configured, `generate_story_and_moral` returns exactly
("(API key missing)", "") and makes no network call. -/
theorem C6_generate_no_key (respond : ServiceCall → List Char)
    (dream genre length : List Char) (h : dream ≠ []) :
    generate_story_and_moral false respond dream genre length =
      ((pyStr "(API key missing)", pyStr ""), []) := rfl

/-- C6 witness: the sentinel at a concrete non-empty dream. -/
theorem C6_generate_no_key_witness :
    generate_story_and_moral false (fun _ => []) (pyStr "a dream")
        (pyStr "Fantasy") (pyStr "Medium") =
      ((pyStr "(API key missing)", pyStr ""), []) :=
  C6_generate_no_key (fun _ => []) (pyStr "a dream") (pyStr "Fantasy")
    (pyStr "Medium") (by decide)

/-- C7: for every non-empty dream text, when no client is configured,
`analyze_mood` returns the fixed sentinel "Unknown (no API key)" and makes
no network call. -/
theorem C7_mood_no_key (respond : ServiceCall → List Char)
    (dream : List Char) (h : dream ≠ []) :
    analyze_mood false respond dream = (pyStr "Unknown (no API key)", []) := rfl

/-- C7 witness: the sentinel at a concrete non-empty dream. -/
theorem C7_mood_no_key_witness :
    analyze_mood false (fun _ => []) (pyStr "a dream") =
      (pyStr "Unknown (no API key)", []) :=
  C7_mood_no_key (fun _ => []) (pyStr "a dream") (by decide)

/-- C8: a submission whose dream text is empty or whitespace-only is
rejected with the warning, makes no service call, and writes no file. -/
theorem C8_empty_dream_rejected (client : Bool)
    (respond : ServiceCall → List Char) (dream genre length : List Char)
    (h : pyStrip dream = []) :
    submitDream client respond dream genre length =
      { warnedEmpty := true, calls := [], savedFile := none } := by
  simp [submitDream, h]

/-- C9: every successful submission writes the file
`stories/dream_<hash>.txt` where the hash is eight hexadecimal characters
computed from the raw dream text alone — so a second submission of the same
dream text, with any other client, responses, genre, or length, produces
the same filename. -/
theorem C9_filename_hash (client client' : Bool)
    (respond respond' : ServiceCall → List Char)
    (dream genre length genre' length' : List Char)
    (h : pyStrip dream ≠ []) :
    ∃ hx : List Char,
      hx.length = 8 ∧ (∀ ch ∈ hx, ch ∈ hexDigits) ∧
      ((submitDream client respond dream genre length).savedFile.map
          Prod.fst =
        some (pyStr "stories/dream_" ++ hx ++ pyStr ".txt")) ∧
      ((submitDream client' respond' dream genre' length').savedFile.map
          Prod.fst =
        some (pyStr "stories/dream_" ++ hx ++ pyStr ".txt")) := by
  refine ⟨dreamHash8 dream, dreamHash8_length dream, dreamHash8_hex dream, ?_, ?_⟩
  · simp [submitDream, h, dreamFName]
  · simp [submitDream, h, dreamFName]

/-- C9 witness: the filename property at the concrete dream text "abc". -/
theorem C9_filename_hash_witness :
    ∃ hx : List Char,
      hx.length = 8 ∧ (∀ ch ∈ hx, ch ∈ hexDigits) ∧
      ((submitDream true (fun _ => []) (pyStr "abc") (pyStr "Fantasy")
            (pyStr "Short")).savedFile.map Prod.fst =
        some (pyStr "stories/dream_" ++ hx ++ pyStr ".txt")) ∧
      ((submitDream false (fun _ => pyStr "r") (pyStr "abc") (pyStr "Horror")
            (pyStr "Long")).savedFile.map Prod.fst =
        some (pyStr "stories/dream_" ++ hx ++ pyStr ".txt")) :=
  C9_filename_hash true false (fun _ => []) (fun _ => pyStr "r") (pyStr "abc")
    (pyStr "Fantasy") (pyStr "Short") (pyStr "Horror") (pyStr "Long")
    (by decide)

/-- C8 witness: a whitespace-only dream is rejected even with a client. -/
theorem C8_empty_dream_rejected_witness :
    submitDream true (fun _ => []) (pyStr "   ") (pyStr "Fantasy")
        (pyStr "Short") =
      { warnedEmpty := true, calls := [], savedFile := none } :=
  C8_empty_dream_rejected true (fun _ => []) (pyStr "   ") (pyStr "Fantasy")
    (pyStr "Short") (by decide)
